import Mathlib

/-!
Shallow embedding of the Flex-Workout-MVP application core
(`src/workout-app/app/page.tsx`) and verification of its specification.

JavaScript numbers are modelled as rationals (`ℚ`); all arithmetic the
program performs (multiplication by small fractions, addition, division by
2.5, `Math.round`, `Math.max`/`Math.min`) is exact on the inputs the claims
quantify over, so the rational model is faithful.  `Math.round` rounds half
toward positive infinity, i.e. `⌊x + 1/2⌋`.
-/

namespace WorkoutMVP

/-- The five tracked lifts (`type LiftKey`). -/
inductive LiftKey where
  | bench | squat | deadlift | ohp | row
deriving DecidableEq, Repr

/-- Workout categories (`type DayType`). -/
inductive DayType where
  | Push | Pull | Legs | Full
deriving DecidableEq, Repr

/-- Training goal (`Setup.goal`). -/
inductive Goal where
  | Hypertrophy | Strength | Health
deriving DecidableEq, Repr

/-- The `fiveRM : Record<LiftKey, number>` object: five fixed numeric keys. -/
structure FiveRM where
  bench : ℚ
  squat : ℚ
  deadlift : ℚ
  ohp : ℚ
  row : ℚ
deriving DecidableEq, Repr

/-- Property access `fiveRM[lift]`. -/
def FiveRM.get (f : FiveRM) : LiftKey → ℚ
  | .bench => f.bench
  | .squat => f.squat
  | .deadlift => f.deadlift
  | .ohp => f.ohp
  | .row => f.row

/-- The user profile (`type Setup`). -/
structure Setup where
  name : Option String
  gender : String
  heightIn : ℚ
  weightLb : ℚ
  goal : Goal
  fiveRM : FiveRM
deriving DecidableEq, Repr

/-- The `primary` tag of an exercise: one of the five lifts or `'accessory'`. -/
inductive Primary where
  | lift (k : LiftKey)
  | accessory
deriving DecidableEq, Repr

/-- A prescribed exercise (`type Exercise`).  Optional fields of the
TypeScript type are `Option`s; an absent field is `none`. -/
structure Exercise where
  id : String
  name : String
  primary : Primary
  muscleGroups : List String
  sets : ℚ
  reps : String
  targetWeightLb : Option ℚ
  notes : Option String
deriving DecidableEq, Repr

/-- A performance log entry (`type ExerciseLog`). -/
structure ExerciseLog where
  exerciseId : String
  actualWeightLb : Option ℚ
  actualReps : Option String
  rpe : Option ℚ
  notes : Option String
deriving DecidableEq, Repr

/-- A session (`type Session`). -/
structure Session where
  id : String
  dateISO : String
  dayType : DayType
  muscleGroups : List String
  energy : ℚ
  difficulty : ℚ
  sleepHours : Option ℚ
  workout : List Exercise
  logs : List ExerciseLog
deriving DecidableEq, Repr

/-- Source `estimate1RMFrom5RM`: Epley approximation `fiveRM * (1 + 5/30)`. -/
def estimate1RMFrom5RM (fiveRM : ℚ) : ℚ :=
  fiveRM * (1 + 5 / 30)

/-- Source `trainingMax`: `oneRM * 0.9`. -/
def trainingMax (oneRM : ℚ) : ℚ :=
  oneRM * (9 / 10)

/-- Model of `Math.round`: round to nearest integer, half toward positive infinity. -/
def jsRound (x : ℚ) : ℤ :=
  ⌊x + 1 / 2⌋

/-- Source `roundTo2_5`: `Math.round(x / 2.5) * 2.5`. -/
def roundTo2_5 (x : ℚ) : ℚ :=
  (jsRound (x / (5 / 2)) : ℚ) * (5 / 2)

/-- Source `clamp`: `Math.max(min, Math.min(max, n))`. -/
def clamp (n mn mx : ℚ) : ℚ :=
  max mn (min mx n)

/-- JavaScript truthiness of the optional number `ex.targetWeightLb`:
an absent field and an exact `0` are both falsy. -/
def truthyNum : Option ℚ → Bool
  | some w => w != 0
  | none => false

/-- JavaScript `x || 0` on a number: `0` stays `0`, anything else is itself. -/
def jsOrZero (x : ℚ) : ℚ :=
  if x == 0 then 0 else x

/-- The fixed priority order `['Push', 'Pull', 'Legs', 'Full']`. -/
def dayOrder : List DayType :=
  [.Push, .Pull, .Legs, .Full]

/-- Source `pickNextDayType`: first day type of `dayOrder` absent from the up-to-4
most recent day types; otherwise rotate from the most recent session's day
type (`order[(idx + 1) % order.length]`), with the source's fallback to
`Full` when `history[0]` is undefined. -/
def pickNextDayType (history : List Session) : DayType :=
  let recent := (history.take 4).map (·.dayType)
  match dayOrder.find? (fun dt => !(recent.contains dt)) with
  | some dt => dt
  | none =>
    match history.head? with
    | none => .Full
    | some s => dayOrder.getD ((dayOrder.indexOf s.dayType + 1) % dayOrder.length) .Push

/-- Source `findLastLiftPerformance`: scan history most-recent-first for the first
session containing an exercise whose `primary` matches the lift and whose
`targetWeightLb` is truthy; also return that session's matching log. -/
def findLastLiftPerformance (history : List Session) (lift : LiftKey) :
    Option (Session × Exercise × Option ExerciseLog) :=
  match history with
  | [] => none
  | s :: rest =>
    match s.workout.find? (fun ex => ex.primary == .lift lift && truthyNum ex.targetWeightLb) with
    | some ex => some (s, ex, s.logs.find? (fun l => l.exerciseId == ex.id))
    | none => findLastLiftPerformance rest lift

/-- Training max for a lift: `trainingMax(estimate1RMFrom5RM(setup.fiveRM[lift] || 0))`. -/
def tMaxFor (setup : Setup) (lift : LiftKey) : ℚ :=
  trainingMax (estimate1RMFrom5RM (jsOrZero (setup.fiveRM.get lift)))

/-- Base intensity fraction by goal: Strength 0.8, Health 0.65, else 0.7. -/
def basePctFor (goal : Goal) : ℚ :=
  match goal with
  | .Strength => 8 / 10
  | .Health => 65 / 100
  | .Hypertrophy => 7 / 10

/-- Day adjustment: `-0.05` on a Full day, otherwise `0`. -/
def dayAdjustFor (dayType : DayType) : ℚ :=
  if dayType == .Full then -(5 / 100) else 0

/-- Bump applied on top of the last prescribed weight, first matching rule:
`+5` if difficulty ≤ 2 and energy ≥ 4; `+2.5` if difficulty = 3; `-5` if
difficulty ≥ 4 or energy ≤ 2; otherwise `0`. -/
def bumpFor (difficulty energy : ℚ) : ℚ :=
  if difficulty ≤ 2 ∧ energy ≥ 4 then 5
  else if difficulty = 3 then 5 / 2
  else if difficulty ≥ 4 ∨ energy ≤ 2 then -5
  else 0

/-- The value of `target` in `computeTargetWeightLb` just before the clamp:
the percentage-of-training-max baseline, overridden by last weight plus bump
when a last performance with a truthy prescribed weight exists. -/
def preClampTarget (setup : Setup) (history : List Session) (lift : LiftKey)
    (dayType : DayType) : ℚ :=
  let tMax := tMaxFor setup lift
  let base := tMax * (basePctFor setup.goal + dayAdjustFor dayType)
  match findLastLiftPerformance history lift with
  | some (s, ex, _) =>
    if truthyNum ex.targetWeightLb then
      ex.targetWeightLb.getD 0 + bumpFor s.difficulty s.energy
    else base
  | none => base

/-- Source `computeTargetWeightLb`: clamp the pre-clamp target to
`[tMax * 0.55, tMax * 0.9]` and round to the nearest 2.5. -/
def computeTargetWeightLb (setup : Setup) (history : List Session) (lift : LiftKey)
    (dayType : DayType) : ℚ :=
  let tMax := tMaxFor setup lift
  roundTo2_5 (clamp (preClampTarget setup history lift dayType) (tMax * (55 / 100)) (tMax * (9 / 10)))

/-- Cyclic successor in rotation order, wrapping Full to Push.  Stated from
the specification's words for comparison with `pickNextDayType`. -/
def rotateNext : DayType → DayType
  | .Push => .Pull
  | .Pull => .Legs
  | .Legs => .Full
  | .Full => .Push

/-- Day-type selection as the specification words it for a non-empty history:
first day type in priority order absent from the up-to-4 most recent day
types, else the cyclic successor of the most recent session's day type. -/
def specNextDayType (s : Session) (rest : List Session) : DayType :=
  let recent := ((s :: rest).take 4).map (·.dayType)
  match dayOrder.find? (fun dt => !(recent.contains dt)) with
  | some dt => dt
  | none => rotateNext s.dayType

/-- A minimal session of a given day type, used for concrete examples. -/
def sessOf (dt : DayType) : Session :=
  { id := "s"
    dateISO := "2025-01-01T00:00:00.000Z"
    dayType := dt
    muscleGroups := []
    energy := 3
    difficulty := 3
    sleepHours := none
    workout := []
    logs := [] }

/-- The React store `{ setup, history }`. -/
structure AppState where
  setup : Option Setup
  history : List Session
deriving DecidableEq, Repr

/-! ### Persistence

The app persists `JSON.stringify({ setup, history })` under one storage key
and reads it back with `JSON.parse`.  The text serialization and parsing are
the platform's (out of scope per the specification); `JSON.stringify` and
`JSON.parse` are mutually inverse on JSON-safe data, so the stored content
is modelled as the parsed JSON value.  Encoders below mirror
`JSON.stringify` on the typed objects (a field holding `undefined` is
omitted); decoders are the typed reading of the untyped parse result. -/

/-- A JSON value. -/
inductive JValue where
  | null
  | bool (b : Bool)
  | num (q : ℚ)
  | str (s : String)
  | arr (elems : List JValue)
  | obj (fields : List (String × JValue))

/-- Property access `o[k]` on a parsed object: `none` models `undefined`. -/
def jGet (fields : List (String × JValue)) (k : String) : Option JValue :=
  (fields.find? (fun p => p.1 == k)).map (·.2)

/-- Property access on an arbitrary value (non-objects have no properties). -/
def jGetField (v : JValue) (k : String) : Option JValue :=
  match v with
  | .obj fields => jGet fields k
  | _ => none

/-- An optional string field, omitted when `none` (as `JSON.stringify` does). -/
def optStrField (k : String) : Option String → List (String × JValue)
  | none => []
  | some s => [(k, .str s)]

/-- An optional number field, omitted when `none`. -/
def optNumField (k : String) : Option ℚ → List (String × JValue)
  | none => []
  | some q => [(k, .num q)]

def liftKeyStr : LiftKey → String
  | .bench => "bench"
  | .squat => "squat"
  | .deadlift => "deadlift"
  | .ohp => "ohp"
  | .row => "row"

def encodeGoal : Goal → JValue
  | .Hypertrophy => .str "Hypertrophy"
  | .Strength => .str "Strength"
  | .Health => .str "Health"

def encodeDayType : DayType → JValue
  | .Push => .str "Push"
  | .Pull => .str "Pull"
  | .Legs => .str "Legs"
  | .Full => .str "Full"

def encodePrimary : Primary → JValue
  | .lift k => .str (liftKeyStr k)
  | .accessory => .str "accessory"

def encodeFiveRM (f : FiveRM) : JValue :=
  .obj [("bench", .num f.bench), ("squat", .num f.squat), ("deadlift", .num f.deadlift),
        ("ohp", .num f.ohp), ("row", .num f.row)]

def encodeSetup (s : Setup) : JValue :=
  .obj (optStrField "name" s.name ++
    [("gender", .str s.gender), ("heightIn", .num s.heightIn), ("weightLb", .num s.weightLb),
     ("goal", encodeGoal s.goal), ("fiveRM", encodeFiveRM s.fiveRM)])

def encodeExercise (e : Exercise) : JValue :=
  .obj ([("id", .str e.id), ("name", .str e.name), ("primary", encodePrimary e.primary),
         ("muscleGroups", .arr (e.muscleGroups.map .str)), ("sets", .num e.sets),
         ("reps", .str e.reps)] ++
        optNumField "targetWeightLb" e.targetWeightLb ++ optStrField "notes" e.notes)

def encodeLog (l : ExerciseLog) : JValue :=
  .obj ([("exerciseId", .str l.exerciseId)] ++
        optNumField "actualWeightLb" l.actualWeightLb ++ optStrField "actualReps" l.actualReps ++
        optNumField "rpe" l.rpe ++ optStrField "notes" l.notes)

def encodeSession (s : Session) : JValue :=
  .obj ([("id", .str s.id), ("dateISO", .str s.dateISO), ("dayType", encodeDayType s.dayType),
         ("muscleGroups", .arr (s.muscleGroups.map .str)), ("energy", .num s.energy),
         ("difficulty", .num s.difficulty)] ++
        optNumField "sleepHours" s.sleepHours ++
        [("workout", .arr (s.workout.map encodeExercise)),
         ("logs", .arr (s.logs.map encodeLog))])

def asStr : JValue → Option String
  | .str s => some s
  | _ => none

def asNum : JValue → Option ℚ
  | .num q => some q
  | _ => none

/-- Reading an optional string property: absent is `none`, a string is kept,
any other value does not decode. -/
def decodeOptStr : Option JValue → Option (Option String)
  | none => some none
  | some (.str s) => some (some s)
  | some _ => none

/-- Reading an optional number property. -/
def decodeOptNum : Option JValue → Option (Option ℚ)
  | none => some none
  | some (.num q) => some (some q)
  | some _ => none

/-- Decode every element of a list, failing if any element fails. -/
def decodeListWith (f : JValue → Option α) : List JValue → Option (List α)
  | [] => some []
  | v :: vs =>
    match f v, decodeListWith f vs with
    | some a, some rest => some (a :: rest)
    | _, _ => none

def decodeStrList (v : JValue) : Option (List String) :=
  match v with
  | .arr xs => decodeListWith asStr xs
  | _ => none

def decodeGoal (v : JValue) : Option Goal :=
  match v with
  | .str "Hypertrophy" => some .Hypertrophy
  | .str "Strength" => some .Strength
  | .str "Health" => some .Health
  | _ => none

def decodeDayType (v : JValue) : Option DayType :=
  match v with
  | .str "Push" => some .Push
  | .str "Pull" => some .Pull
  | .str "Legs" => some .Legs
  | .str "Full" => some .Full
  | _ => none

def decodePrimary (v : JValue) : Option Primary :=
  match v with
  | .str "bench" => some (.lift .bench)
  | .str "squat" => some (.lift .squat)
  | .str "deadlift" => some (.lift .deadlift)
  | .str "ohp" => some (.lift .ohp)
  | .str "row" => some (.lift .row)
  | .str "accessory" => some .accessory
  | _ => none

def decodeFiveRM (v : JValue) : Option FiveRM :=
  match v with
  | .obj fs => do
    let b ← (jGet fs "bench").bind asNum
    let sq ← (jGet fs "squat").bind asNum
    let dl ← (jGet fs "deadlift").bind asNum
    let o ← (jGet fs "ohp").bind asNum
    let r ← (jGet fs "row").bind asNum
    pure ⟨b, sq, dl, o, r⟩
  | _ => none

def decodeSetup (v : JValue) : Option Setup :=
  match v with
  | .obj fs => do
    let nm ← decodeOptStr (jGet fs "name")
    let g ← (jGet fs "gender").bind asStr
    let h ← (jGet fs "heightIn").bind asNum
    let w ← (jGet fs "weightLb").bind asNum
    let gl ← (jGet fs "goal").bind decodeGoal
    let fr ← (jGet fs "fiveRM").bind decodeFiveRM
    pure ⟨nm, g, h, w, gl, fr⟩
  | _ => none

def decodeExercise (v : JValue) : Option Exercise :=
  match v with
  | .obj fs => do
    let i ← (jGet fs "id").bind asStr
    let nm ← (jGet fs "name").bind asStr
    let pr ← (jGet fs "primary").bind decodePrimary
    let mg ← (jGet fs "muscleGroups").bind decodeStrList
    let st ← (jGet fs "sets").bind asNum
    let rp ← (jGet fs "reps").bind asStr
    let tw ← decodeOptNum (jGet fs "targetWeightLb")
    let nt ← decodeOptStr (jGet fs "notes")
    pure ⟨i, nm, pr, mg, st, rp, tw, nt⟩
  | _ => none

def decodeLog (v : JValue) : Option ExerciseLog :=
  match v with
  | .obj fs => do
    let i ← (jGet fs "exerciseId").bind asStr
    let aw ← decodeOptNum (jGet fs "actualWeightLb")
    let ar ← decodeOptStr (jGet fs "actualReps")
    let rp ← decodeOptNum (jGet fs "rpe")
    let nt ← decodeOptStr (jGet fs "notes")
    pure ⟨i, aw, ar, rp, nt⟩
  | _ => none

def decodeSession (v : JValue) : Option Session :=
  match v with
  | .obj fs => do
    let i ← (jGet fs "id").bind asStr
    let dt ← (jGet fs "dateISO").bind asStr
    let dy ← (jGet fs "dayType").bind decodeDayType
    let mg ← (jGet fs "muscleGroups").bind decodeStrList
    let en ← (jGet fs "energy").bind asNum
    let df ← (jGet fs "difficulty").bind asNum
    let sl ← decodeOptNum (jGet fs "sleepHours")
    let wk ← (jGet fs "workout").bind (fun v2 => match v2 with
      | .arr xs => decodeListWith decodeExercise xs
      | _ => none)
    let lg ← (jGet fs "logs").bind (fun v2 => match v2 with
      | .arr xs => decodeListWith decodeLog xs
      | _ => none)
    pure ⟨i, dt, dy, mg, en, df, sl, wk, lg⟩
  | _ => none

/-- Outcome of reading the storage key: no stored string, a stored string
`JSON.parse` rejects, or a stored string parsing to a JSON value. -/
inductive StoredRaw where
  | absent
  | unparseable
  | parsed (v : JValue)

/-- Source `loadState`: empty state when nothing is stored or parsing throws;
otherwise `setup` is `parsed.setup ?? null` and `history` is
`Array.isArray(parsed.history) ? parsed.history : []`. -/
def loadState (raw : StoredRaw) : AppState :=
  match raw with
  | .absent => ⟨none, []⟩
  | .unparseable => ⟨none, []⟩
  | .parsed v =>
    let setup : Option Setup :=
      match jGetField v "setup" with
      | none => none
      | some .null => none
      | some sv => decodeSetup sv
    let history : List Session :=
      match jGetField v "history" with
      | some (.arr xs) => (decodeListWith decodeSession xs).getD []
      | _ => []
    ⟨setup, history⟩

/-- Source `saveState`: store `JSON.stringify({ setup, history })` (modelled as the
JSON value itself; `null` stands for a missing profile). -/
def saveState (setup : Option Setup) (history : List Session) : JValue :=
  .obj [("setup", match setup with | none => .null | some s => encodeSetup s),
        ("history", .arr (history.map encodeSession))]

/-! ### State-mutating operations of the page component -/

/-- A `Partial<Session>` patch: a `none` field is an absent key, a `some`
field is a key present in the patch (for the optional `sleepHours` the inner
`Option` is the stored value, possibly `undefined`). -/
structure SessionPatch where
  id : Option String := none
  dateISO : Option String := none
  dayType : Option DayType := none
  muscleGroups : Option (List String) := none
  energy : Option ℚ := none
  difficulty : Option ℚ := none
  sleepHours : Option (Option ℚ) := none
  workout : Option (List Exercise) := none
  logs : Option (List ExerciseLog) := none

/-- Object spread `{ ...s, ...p }` for sessions. -/
def mergeSession (s : Session) (p : SessionPatch) : Session :=
  { id := p.id.getD s.id
    dateISO := p.dateISO.getD s.dateISO
    dayType := p.dayType.getD s.dayType
    muscleGroups := p.muscleGroups.getD s.muscleGroups
    energy := p.energy.getD s.energy
    difficulty := p.difficulty.getD s.difficulty
    sleepHours := p.sleepHours.getD s.sleepHours
    workout := p.workout.getD s.workout
    logs := p.logs.getD s.logs }

/-- A `Partial<ExerciseLog>` patch. -/
structure LogPatch where
  exerciseId : Option String := none
  actualWeightLb : Option (Option ℚ) := none
  actualReps : Option (Option String) := none
  rpe : Option (Option ℚ) := none
  notes : Option (Option String) := none

/-- Object spread `{ ...l, ...p }` for log entries. -/
def mergeLog (l : ExerciseLog) (p : LogPatch) : ExerciseLog :=
  { exerciseId := p.exerciseId.getD l.exerciseId
    actualWeightLb := p.actualWeightLb.getD l.actualWeightLb
    actualReps := p.actualReps.getD l.actualReps
    rpe := p.rpe.getD l.rpe
    notes := p.notes.getD l.notes }

/-- Source `updateToday`: when the most recent session is today's session (the
`isSameDay` date comparison, a platform call passed in as `sameDay`),
replace it by its merge with the patch, keeping the rest of the history and
the profile; otherwise do nothing. -/
def updateToday (sameDay : String → String → Bool) (nowISO : String)
    (st : AppState) (patch : SessionPatch) : AppState :=
  match st.history with
  | [] => st
  | h :: rest =>
    if sameDay h.dateISO nowISO then ⟨st.setup, mergeSession h patch :: rest⟩ else st

/-- Source `updateExerciseLog`: when today's session exists, map over its logs,
merging the patch into the entries whose `exerciseId` matches, and hand the
new log list to `updateToday`. -/
def updateExerciseLog (sameDay : String → String → Bool) (nowISO : String)
    (st : AppState) (exId : String) (patch : LogPatch) : AppState :=
  match st.history with
  | [] => st
  | h :: _rest =>
    if sameDay h.dateISO nowISO then
      let logs := h.logs.map (fun l => if l.exerciseId == exId then mergeLog l patch else l)
      updateToday sameDay nowISO st { logs := some logs }
    else st

/-! ### Workout generation and demo data

`uid` draws fresh identifiers from `Math.random` and `Date.now`; it is
modelled by an explicit supply `ids : ℕ → String` of generated strings, and
the current date string is likewise passed in. -/

/-- Source `baseWorkoutTemplate`: the fixed five-exercise list per day type, with
fresh ids `ids 0 .. ids 4`. -/
def baseWorkoutTemplate (ids : ℕ → String) (dayType : DayType) : List Exercise :=
  match dayType with
  | .Push =>
    [⟨ids 0, "Barbell Bench Press", .lift .bench, ["Chest", "Triceps", "Shoulders"], 4, "6-10", none, none⟩,
     ⟨ids 1, "Overhead Press", .lift .ohp, ["Shoulders", "Triceps"], 3, "6-10", none, none⟩,
     ⟨ids 2, "Incline Dumbbell Press", .accessory, ["Chest"], 3, "8-12", none, none⟩,
     ⟨ids 3, "Lateral Raises", .accessory, ["Shoulders"], 3, "12-15", none, none⟩,
     ⟨ids 4, "Triceps Rope Pushdown", .accessory, ["Triceps"], 3, "10-15", none, none⟩]
  | .Pull =>
    [⟨ids 0, "Barbell Row", .lift .row, ["Back", "Biceps"], 4, "6-10", none, none⟩,
     ⟨ids 1, "Pull-Ups / Lat Pulldown", .accessory, ["Back"], 3, "6-12", none, none⟩,
     ⟨ids 2, "Seated Cable Row", .accessory, ["Back"], 3, "8-12", none, none⟩,
     ⟨ids 3, "Face Pulls", .accessory, ["Rear Delts"], 3, "12-15", none, none⟩,
     ⟨ids 4, "Dumbbell Curls", .accessory, ["Biceps"], 3, "10-15", none, none⟩]
  | .Legs =>
    [⟨ids 0, "Back Squat", .lift .squat, ["Quads", "Glutes"], 4, "5-8", none, none⟩,
     ⟨ids 1, "Romanian Deadlift", .accessory, ["Hamstrings", "Glutes"], 3, "6-10", none, none⟩,
     ⟨ids 2, "Leg Press", .accessory, ["Quads"], 3, "10-15", none, none⟩,
     ⟨ids 3, "Hamstring Curl", .accessory, ["Hamstrings"], 3, "10-15", none, none⟩,
     ⟨ids 4, "Calf Raises", .accessory, ["Calves"], 3, "12-20", none, none⟩]
  | .Full =>
    [⟨ids 0, "Deadlift (Technique / Moderate)", .lift .deadlift, ["Posterior Chain"], 3, "3-5", none, none⟩,
     ⟨ids 1, "Bench Press (Moderate)", .lift .bench, ["Chest", "Triceps"], 3, "6-10", none, none⟩,
     ⟨ids 2, "Barbell Row (Moderate)", .lift .row, ["Back"], 3, "6-10", none, none⟩,
     ⟨ids 3, "Goblet Squat / Front Squat", .accessory, ["Quads", "Core"], 3, "8-12", none, none⟩,
     ⟨ids 4, "Plank / Hanging Knee Raises", .accessory, ["Core"], 3, "30-60s", none, none⟩]

/-- Fill in the computed target for exercises whose `primary` is a tracked
lift, as `generateTodayWorkout`'s map over the template does. -/
def fillTarget (setup : Setup) (history : List Session) (dayType : DayType)
    (ex : Exercise) : Exercise :=
  match ex.primary with
  | .lift k => { ex with targetWeightLb := some (computeTargetWeightLb setup history k dayType) }
  | .accessory => ex

/-- Helper for `dedupFirst`, carrying the set of already-seen strings. -/
def dedupAux : List String → List String → List String
  | _, [] => []
  | seen, x :: xs => if seen.contains x then dedupAux seen xs else x :: dedupAux (x :: seen) xs

/-- Model of `Array.from(new Set(xs))`: deduplicate keeping first occurrences. -/
def dedupFirst (l : List String) : List String :=
  dedupAux [] l

/-- The session `generateTodayWorkout` creates: today's workout from the
rotation's day type, one log entry per exercise, energy and difficulty 3. -/
def genSession (ids : ℕ → String) (sessId dateISO : String) (setup : Setup)
    (history : List Session) : Session :=
  let dayType := pickNextDayType history
  let workout := (baseWorkoutTemplate ids dayType).map (fillTarget setup history dayType)
  { id := sessId
    dateISO := dateISO
    dayType := dayType
    muscleGroups := dedupFirst ((workout.map (·.muscleGroups)).flatten)
    energy := 3
    difficulty := 3
    sleepHours := none
    workout := workout
    logs := workout.map (fun w => ⟨w.id, none, none, none, none⟩) }

/-- Source `generateTodayWorkout` (with a saved profile): prepend the generated
session to the history. -/
def generateTodayWorkout (ids : ℕ → String) (sessId dateISO : String)
    (setup : Setup) (history : List Session) : AppState :=
  ⟨some setup, genSession ids sessId dateISO setup history :: history⟩

/-- The demo profile seeded by `applyDemoData`. -/
def demoSetup : Setup :=
  ⟨some "Demo Athlete", "Male", 70, 180, .Hypertrophy, ⟨225, 275, 315, 135, 185⟩⟩

/-- The two synthetic sessions seeded by `applyDemoData` (ids drawn from the
supply, dates are the two computed ISO strings).  Note both have an empty
log list. -/
def demoHistory (ids : ℕ → String) (d1 d2 : String) : List Session :=
  [{ id := ids 0
     dateISO := d1
     dayType := .Push
     muscleGroups := ["Chest", "Shoulders", "Triceps"]
     energy := 4
     difficulty := 3
     sleepHours := some 7
     workout :=
       [⟨ids 1, "Barbell Bench Press", .lift .bench, ["Chest", "Triceps"], 4, "6-10", some 175, none⟩,
        ⟨ids 2, "Overhead Press", .lift .ohp, ["Shoulders"], 3, "6-10", some 105, none⟩,
        ⟨ids 3, "Incline Dumbbell Press", .accessory, ["Chest"], 3, "8-12", none, none⟩,
        ⟨ids 4, "Lateral Raises", .accessory, ["Shoulders"], 3, "12-15", none, none⟩,
        ⟨ids 5, "Triceps Rope Pushdown", .accessory, ["Triceps"], 3, "10-15", none, none⟩]
     logs := [] },
   { id := ids 6
     dateISO := d2
     dayType := .Pull
     muscleGroups := ["Back", "Biceps"]
     energy := 3
     difficulty := 4
     sleepHours := some 6
     workout :=
       [⟨ids 7, "Barbell Row", .lift .row, ["Back"], 4, "6-10", some 145, none⟩,
        ⟨ids 8, "Pull-Ups / Lat Pulldown", .accessory, ["Back"], 3, "6-12", none, none⟩,
        ⟨ids 9, "Seated Cable Row", .accessory, ["Back"], 3, "8-12", none, none⟩,
        ⟨ids 10, "Face Pulls", .accessory, ["Rear Delts"], 3, "12-15", none, none⟩,
        ⟨ids 11, "Dumbbell Curls", .accessory, ["Biceps"], 3, "10-15", none, none⟩]
     logs := [] }]

/-- Source `applyDemoData`: replace the store with the demo profile and history. -/
def applyDemoData (ids : ℕ → String) (d1 d2 : String) : AppState :=
  ⟨some demoSetup, demoHistory ids d1 d2⟩

/-- A profile with a small but positive bench 5RM, showing the rounded
target can exceed `0.9 × training max`. -/
def lowBenchSetup : Setup :=
  ⟨none, "Demo", 70, 180, .Hypertrophy, ⟨2, 0, 0, 0, 0⟩⟩

/-- A concrete prior bench prescription at 175 lb, for the progression
scenario. -/
def benchAt175 : Exercise :=
  ⟨"e1", "Barbell Bench Press", .lift .bench, ["Chest"], 4, "6-10", some 175, none⟩

/-- A concrete prior Push session holding `benchAt175`, with difficulty 2
and energy 4. -/
def easyPushSession : Session :=
  { sessOf .Push with difficulty := 2, energy := 4, workout := [benchAt175] }

/-- A bench prescription whose recorded target weight is exactly 0. -/
def zeroTargetExercise : Exercise :=
  ⟨"z1", "Barbell Bench Press", .lift .bench, ["Chest"], 4, "6-10", some 0, none⟩

/-- A session whose only bench exercise has target weight 0. -/
def zeroTargetSession : Session :=
  { sessOf .Push with workout := [zeroTargetExercise] }

/-- The specification's session invariant: exactly one log entry per
exercise of the workout list, linked by exercise identifier. -/
def sessionOk (s : Session) : Bool :=
  s.logs.length == s.workout.length &&
    s.workout.all (fun e => s.logs.countP (fun l => l.exerciseId == e.id) == 1)

/-- A concrete id supply for instantiating the generators. -/
def demoIdsFun : ℕ → String :=
  fun n => toString n

/-- A stored value whose `setup` field is a valid profile but whose
`history` field is the number 42 rather than an array. -/
def badStored : JValue :=
  .obj [("setup", encodeSetup demoSetup), ("history", .num 42)]

/-! ### Helper lemmas -/

theorem jsOrZero_eq (x : ℚ) : jsOrZero x = x := by
  by_cases h : x = 0 <;> simp [jsOrZero, beq_iff_eq, h]

theorem roundTo2_5_eq (x : ℚ) (k : ℤ) (h1 : (k : ℚ) * (5 / 2) - 5 / 4 ≤ x)
    (h2 : x < (k : ℚ) * (5 / 2) + 5 / 4) : roundTo2_5 x = (k : ℚ) * (5 / 2) := by
  have hf : jsRound (x / (5 / 2)) = k := by
    rw [jsRound, Int.floor_eq_iff]
    constructor <;> linarith
  rw [roundTo2_5, hf]

theorem rotate_index_eq (dt : DayType) :
    dayOrder.getD ((dayOrder.indexOf dt + 1) % dayOrder.length) .Push = rotateNext dt := by
  cases dt <;> rfl

/-! ### C1: day type for the empty history -/

/-- C1, counterexample: for the empty history `pickNextDayType` does not
return `Full` — every day type is absent from the empty recent window, so
the priority loop already returns `Push`, and the explicit empty-history
fallback to `Full` is unreachable. -/
theorem C1_empty_history_not_full : pickNextDayType [] ≠ DayType.Full := by decide

/-- C1, amended: for the empty history, `pickNextDayType` returns `Push`,
the first day type in the fixed priority order. -/
theorem C1_empty_history_push : pickNextDayType [] = DayType.Push := rfl

/-! ### C4: day-type rotation for non-empty histories -/

/-- C4: for every non-empty history, `pickNextDayType` returns the first day
type in priority order Push, Pull, Legs, Full absent from the up-to-4 most
recent day types, and otherwise the cyclic successor (wrapping Full to Push)
of the most recent session's day type; in particular, history
`[Push, Pull, Legs]` gives `Full` and `[Push, Pull, Legs, Full]` gives
`Pull`. -/
theorem C4_nonempty_rotation :
    (∀ (s : Session) (rest : List Session), pickNextDayType (s :: rest) = specNextDayType s rest) ∧
    pickNextDayType [sessOf .Push, sessOf .Pull, sessOf .Legs] = .Full ∧
    pickNextDayType [sessOf .Push, sessOf .Pull, sessOf .Legs, sessOf .Full] = .Pull := by
  refine ⟨fun s rest => ?_, by decide, by decide⟩
  simp only [pickNextDayType, specNextDayType]
  split
  · rfl
  · simp only [List.head?, rotate_index_eq]

/-! ### C5: concrete bench target for the demo profile -/

/-- C5: a profile with bench 5RM 225 and goal Hypertrophy, day type Push and
empty history gives bench target exactly 165 (training max 236.25, baseline
165.375, inside the clamp interval, rounded to the nearest 2.5). -/
theorem C5_bench_hypertrophy_165 (nm : Option String) (g : String) (hq wq sq dl o r : ℚ) :
    computeTargetWeightLb ⟨nm, g, hq, wq, .Hypertrophy, ⟨225, sq, dl, o, r⟩⟩ [] .bench .Push
      = 165 := by
  have hr := roundTo2_5_eq (1323 / 8) 66 (by norm_num) (by norm_num)
  simp only [computeTargetWeightLb, preClampTarget, findLastLiftPerformance, tMaxFor,
    trainingMax, estimate1RMFrom5RM, basePctFor, FiveRM.get, jsOrZero_eq,
    show dayAdjustFor DayType.Push = 0 from rfl]
  norm_num
  rw [show clamp ((1323 : ℚ) / 8) (2079 / 16) (1701 / 8) = 1323 / 8 from by
    norm_num [clamp, max_def, min_def], hr]
  norm_num

theorem le_clamp (n mn mx : ℚ) : mn ≤ clamp n mn mx :=
  le_max_left _ _

theorem clamp_le {n mn mx : ℚ} (h : mn ≤ mx) : clamp n mn mx ≤ mx :=
  max_le h (min_le_left _ _)

theorem roundTo2_5_nonneg {x : ℚ} (hx : 0 ≤ x) : 0 ≤ roundTo2_5 x := by
  unfold roundTo2_5 jsRound
  have h0 : (0 : ℤ) ≤ ⌊x / (5 / 2) + 1 / 2⌋ := Int.le_floor.mpr (by push_cast; linarith)
  have h1 : (0 : ℚ) ≤ ((⌊x / (5 / 2) + 1 / 2⌋ : ℤ) : ℚ) := by exact_mod_cast h0
  linarith

theorem roundTo2_5_le (x : ℚ) : roundTo2_5 x ≤ x + 5 / 4 := by
  unfold roundTo2_5 jsRound
  have h1 : ((⌊x / (5 / 2) + 1 / 2⌋ : ℤ) : ℚ) ≤ x / (5 / 2) + 1 / 2 := Int.floor_le _
  linarith

/-! ### C2: shape and bounds of the computed target -/

/-- C2, counterexample: with bench 5RM 2 (goal Hypertrophy, Push day, empty
history), the target is 2.5, but `0.9 × training max` is only 1.89, so the
output lies outside `[0, 0.9 × training max]`. -/
theorem C2_counterexample :
    computeTargetWeightLb lowBenchSetup [] .bench .Push = 5 / 2 ∧
    tMaxFor lowBenchSetup .bench * (9 / 10) = 189 / 100 ∧
    ¬ computeTargetWeightLb lowBenchSetup [] .bench .Push ≤
        tMaxFor lowBenchSetup .bench * (9 / 10) := by
  have h2 : tMaxFor lowBenchSetup .bench * (9 / 10) = 189 / 100 := by
    norm_num [tMaxFor, trainingMax, estimate1RMFrom5RM, jsOrZero_eq, lowBenchSetup, FiveRM.get]
  have h1 : computeTargetWeightLb lowBenchSetup [] .bench .Push = 5 / 2 := by
    have hr := roundTo2_5_eq (147 / 100) 1 (by norm_num) (by norm_num)
    simp only [computeTargetWeightLb, preClampTarget, findLastLiftPerformance, tMaxFor,
      trainingMax, estimate1RMFrom5RM, basePctFor, FiveRM.get, jsOrZero_eq, lowBenchSetup,
      show dayAdjustFor DayType.Push = 0 from rfl]
    norm_num
    rw [show clamp ((147 : ℚ) / 100) (231 / 200) (189 / 100) = 147 / 100 from by
      norm_num [clamp, max_def, min_def], hr]
    norm_num
  refine ⟨h1, h2, ?_⟩
  rw [h1, h2]
  norm_num

/-- C2, amended: the output of `computeTargetWeightLb` is always an integer
multiple of 2.5, and when the profile's 5RM for the lift is nonnegative it
lies in `[0, 0.9 × training max + 1.25]` — in particular it is then never
negative.  (Rounding happens after the clamp, so the output can exceed
`0.9 × training max` by up to 1.25; a negative 5RM makes the clamp interval
degenerate and the output negative.) -/
theorem C2_multiple_and_bounds (setup : Setup) (history : List Session) (lift : LiftKey)
    (dayType : DayType) :
    (∃ k : ℤ, computeTargetWeightLb setup history lift dayType = (k : ℚ) * (5 / 2)) ∧
    (0 ≤ setup.fiveRM.get lift →
      0 ≤ computeTargetWeightLb setup history lift dayType ∧
      computeTargetWeightLb setup history lift dayType ≤
        tMaxFor setup lift * (9 / 10) + 5 / 4) := by
  constructor
  · exact ⟨jsRound (clamp (preClampTarget setup history lift dayType)
      (tMaxFor setup lift * (55 / 100)) (tMaxFor setup lift * (9 / 10)) / (5 / 2)), rfl⟩
  · intro hf
    have ht0 : (0 : ℚ) ≤ tMaxFor setup lift := by
      unfold tMaxFor trainingMax estimate1RMFrom5RM
      rw [jsOrZero_eq]
      nlinarith
    have hlohi : tMaxFor setup lift * (55 / 100) ≤ tMaxFor setup lift * (9 / 10) := by nlinarith
    have h1 : (0 : ℚ) ≤ clamp (preClampTarget setup history lift dayType)
        (tMaxFor setup lift * (55 / 100)) (tMaxFor setup lift * (9 / 10)) :=
      le_trans (by nlinarith) (le_clamp _ _ _)
    have h2 := clamp_le (n := preClampTarget setup history lift dayType) hlohi
    exact ⟨roundTo2_5_nonneg h1, le_trans (roundTo2_5_le _) (by linarith)⟩

/-- C2 witness: the bounds at the demo profile (bench 5RM 225). -/
theorem C2_multiple_and_bounds_witness :
    0 ≤ computeTargetWeightLb demoSetup [] .bench .Push ∧
    computeTargetWeightLb demoSetup [] .bench .Push ≤
      tMaxFor demoSetup .bench * (9 / 10) + 5 / 4 :=
  (C2_multiple_and_bounds demoSetup [] .bench .Push).2 (by norm_num [demoSetup, FiveRM.get])

/-! ### C3: the progression bump -/

/-- The exercise a successful last-performance search returns satisfies the
search predicate: matching primary lift and truthy target weight. -/
theorem findLast_truthy {history : List Session} {lift : LiftKey}
    {s : Session} {ex : Exercise} {lg : Option ExerciseLog}
    (h : findLastLiftPerformance history lift = some (s, ex, lg)) :
    truthyNum ex.targetWeightLb = true := by
  induction history with
  | nil => simp [findLastLiftPerformance] at h
  | cons s0 rest ih =>
    rw [findLastLiftPerformance] at h
    cases hf : s0.workout.find? (fun e => e.primary == .lift lift && truthyNum e.targetWeightLb) with
    | some e =>
      rw [hf] at h
      have hp := List.find?_some hf
      simp only [Bool.and_eq_true] at hp
      obtain ⟨rfl, rfl, rfl⟩ : s = s0 ∧ ex = e ∧ lg = s0.logs.find? (fun l => l.exerciseId == e.id) := by
        simpa using h.symm
      exact hp.2
    | none =>
      rw [hf] at h
      exact ih h

/-- C3: whenever the last-performance search succeeds, the pre-clamp target
equals the last prescribed weight plus the bump chosen by the first matching
rule: +5 if difficulty ≤ 2 and energy ≥ 4; +2.5 if difficulty = 3; −5 if
difficulty ≥ 4 or energy ≤ 2; 0 otherwise. -/
theorem C3_bump_override (setup : Setup) (history : List Session) (lift : LiftKey)
    (dayType : DayType) (s : Session) (ex : Exercise) (lg : Option ExerciseLog)
    (h : findLastLiftPerformance history lift = some (s, ex, lg)) :
    preClampTarget setup history lift dayType =
      ex.targetWeightLb.getD 0 +
        (if s.difficulty ≤ 2 ∧ s.energy ≥ 4 then 5
         else if s.difficulty = 3 then 5 / 2
         else if s.difficulty ≥ 4 ∨ s.energy ≤ 2 then -5
         else 0) := by
  rw [preClampTarget, h]
  simp [findLast_truthy h, bumpFor]

/-- C3 witness: a prior bench session prescribed at 175 with difficulty 2
and energy 4 yields a pre-clamp target of 180. -/
theorem C3_bump_override_witness :
    preClampTarget demoSetup [easyPushSession] .bench .Push = 180 := by
  have hfind : findLastLiftPerformance [easyPushSession] .bench =
      some (easyPushSession, benchAt175, none) := by
    simp [findLastLiftPerformance, easyPushSession, benchAt175, sessOf, truthyNum]
  rw [C3_bump_override demoSetup [easyPushSession] .bench .Push easyPushSession benchAt175
    none hfind]
  norm_num [benchAt175, easyPushSession, sessOf]

/-! ### C9: a zero target weight is treated as absent -/

/-- C9: a session all of whose exercises matching the lift have target
weight 0 (or none) is skipped by the last-performance search, and
`computeTargetWeightLb` on a history starting with such a session equals
its value on the remaining history (so with no other match it falls back to
the percentage-of-training-max baseline). -/
theorem C9_zero_target_skipped (setup : Setup) (lift : LiftKey) (dayType : DayType)
    (s : Session) (rest : List Session)
    (h : ∀ ex ∈ s.workout, ex.primary = .lift lift → ex.targetWeightLb.getD 0 = 0) :
    findLastLiftPerformance (s :: rest) lift = findLastLiftPerformance rest lift ∧
    computeTargetWeightLb setup (s :: rest) lift dayType =
      computeTargetWeightLb setup rest lift dayType := by
  have hfind : s.workout.find?
      (fun ex => ex.primary == .lift lift && truthyNum ex.targetWeightLb) = none := by
    rw [List.find?_eq_none]
    intro ex hex
    by_cases hp : ex.primary = .lift lift
    · have hz := h ex hex hp
      have ht : truthyNum ex.targetWeightLb = false := by
        cases hw : ex.targetWeightLb with
        | none => rfl
        | some w =>
          rw [hw] at hz
          simp only [Option.getD_some] at hz
          simp [truthyNum, hz]
      simp [ht]
    · simp [hp]
  have h1 : findLastLiftPerformance (s :: rest) lift = findLastLiftPerformance rest lift := by
    rw [findLastLiftPerformance, hfind]
  refine ⟨h1, ?_⟩
  unfold computeTargetWeightLb preClampTarget
  rw [h1]

/-- C9 witness: the concrete zero-target bench session is skipped and the
target for the demo profile equals the empty-history baseline. -/
theorem C9_zero_target_skipped_witness :
    findLastLiftPerformance [zeroTargetSession] .bench = findLastLiftPerformance [] .bench ∧
    computeTargetWeightLb demoSetup [zeroTargetSession] .bench .Push =
      computeTargetWeightLb demoSetup [] .bench .Push :=
  C9_zero_target_skipped demoSetup .bench .Push zeroTargetSession []
    (by
      intro ex hex _
      simp only [zeroTargetSession, sessOf, List.mem_singleton] at hex
      subst hex
      rfl)

/-! ### C10: the frame of today-session updates -/

/-- C10: when the most recent session is today's session, `updateToday`
changes neither the profile, nor the history length, nor any session after
the first; `updateExerciseLog` likewise, and it also keeps the first
session's workout list and every log entry with a different exercise
identifier. -/
theorem C10_update_frame (sameDay : String → String → Bool) (nowISO : String)
    (setup : Option Setup) (h : Session) (rest : List Session) (patch : SessionPatch)
    (exId : String) (lp : LogPatch) (hsame : sameDay h.dateISO nowISO = true) :
    (updateToday sameDay nowISO ⟨setup, h :: rest⟩ patch).setup = setup ∧
    (updateToday sameDay nowISO ⟨setup, h :: rest⟩ patch).history.length = rest.length + 1 ∧
    (updateToday sameDay nowISO ⟨setup, h :: rest⟩ patch).history.tail = rest ∧
    (updateExerciseLog sameDay nowISO ⟨setup, h :: rest⟩ exId lp).setup = setup ∧
    ∃ h2, (updateExerciseLog sameDay nowISO ⟨setup, h :: rest⟩ exId lp).history = h2 :: rest ∧
      h2.workout = h.workout ∧
      h2.logs.length = h.logs.length ∧
      ∀ (i : ℕ) (l : ExerciseLog), h.logs[i]? = some l → l.exerciseId ≠ exId →
        h2.logs[i]? = some l := by
  have hu : updateToday sameDay nowISO ⟨setup, h :: rest⟩ patch =
      ⟨setup, mergeSession h patch :: rest⟩ := by
    simp [updateToday, hsame]
  have he : updateExerciseLog sameDay nowISO ⟨setup, h :: rest⟩ exId lp =
      ⟨setup,
        mergeSession h
          { logs := some (h.logs.map (fun l => if l.exerciseId == exId then mergeLog l lp else l)) }
        :: rest⟩ := by
    simp [updateExerciseLog, updateToday, hsame]
  rw [hu, he]
  refine ⟨rfl, rfl, rfl, rfl, _, rfl, rfl, by simp [mergeSession], ?_⟩
  intro i l hi hne
  simp only [mergeSession, Option.getD_some, List.getElem?_map, hi, Option.map_some]
  simp [beq_iff_eq, hne]

/-- C10 witness: a concrete same-day update keeps the profile. -/
theorem C10_update_frame_witness :
    (updateToday (fun _ _ => true) "d" ⟨some demoSetup, [sessOf .Push]⟩
      { energy := some 5 }).setup = some demoSetup :=
  (C10_update_frame (fun _ _ => true) "d" (some demoSetup) (sessOf .Push) []
    { energy := some 5 } "x" { rpe := some (some 8) } rfl).1

/-! ### C6: the one-log-per-exercise invariant -/

theorem sessionOk_of {s : Session}
    (h1 : s.logs.map (fun l => l.exerciseId) = s.workout.map (fun e => e.id))
    (h2 : (s.workout.map (fun e => e.id)).Nodup) : sessionOk s = true := by
  have hlen : s.logs.length = s.workout.length := by
    have := congrArg List.length h1
    simpa using this
  rw [sessionOk]
  simp only [Bool.and_eq_true, beq_iff_eq, List.all_eq_true]
  refine ⟨hlen, ?_⟩
  intro e he
  have hc : s.logs.countP (fun l => l.exerciseId == e.id) =
      (s.logs.map (fun l => l.exerciseId)).count e.id := by
    rw [List.count, List.countP_map]
    rfl
  rw [hc, h1]
  exact List.count_eq_one_of_mem h2 (List.mem_map_of_mem _ he)

theorem sessionOk_map_logs (s : Session) (f : ExerciseLog → ExerciseLog)
    (hf : ∀ l, (f l).exerciseId = l.exerciseId) :
    sessionOk { s with logs := s.logs.map f } = sessionOk s := by
  have hcnt : ∀ e : Exercise, (s.logs.map f).countP (fun l => l.exerciseId == e.id) =
      s.logs.countP (fun l => l.exerciseId == e.id) := by
    intro e
    rw [List.countP_map]
    apply List.countP_congr
    intro l _
    simp [Function.comp, hf]
  rw [sessionOk, sessionOk]
  simp only [List.length_map, hcnt]

theorem mergeSession_logs_only (h : Session) (L : List ExerciseLog) :
    mergeSession h { logs := some L } = { h with logs := L } := rfl

theorem fillTarget_id (setup : Setup) (history : List Session) (dayType : DayType)
    (ex : Exercise) : (fillTarget setup history dayType ex).id = ex.id := by
  cases hp : ex.primary <;> simp [fillTarget, hp]

theorem genSession_logs_ids (ids : ℕ → String) (sessId dateISO : String) (setup : Setup)
    (history : List Session) :
    (genSession ids sessId dateISO setup history).logs.map (fun l => l.exerciseId) =
      (genSession ids sessId dateISO setup history).workout.map (fun e => e.id) := by
  simp only [genSession, List.map_map]
  rfl

theorem genSession_workout_ids (ids : ℕ → String) (sessId dateISO : String) (setup : Setup)
    (history : List Session) :
    (genSession ids sessId dateISO setup history).workout.map (fun e => e.id) =
      [ids 0, ids 1, ids 2, ids 3, ids 4] := by
  simp only [genSession, List.map_map]
  have hcomp : ((fun e : Exercise => e.id) ∘ fillTarget setup history (pickNextDayType history)) =
      fun e : Exercise => e.id := by
    funext e
    exact fillTarget_id setup history (pickNextDayType history) e
  rw [hcomp]
  cases pickNextDayType history <;> rfl

/-- C6, counterexample: loading the demo data produces a reachable state
with a session (five prescribed exercises, empty log list) violating the
one-log-per-exercise invariant. -/
theorem C6_counterexample :
    ((applyDemoData demoIdsFun "2025-01-01" "2025-01-02").history.all sessionOk) = false := by
  decide

/-- C6, amended: the invariant holds for every session created by workout
generation (given distinct generated ids) and is preserved by `updateToday`
patches that leave `workout` and `logs` alone (the energy, difficulty and
sleep edits) and by `updateExerciseLog` patches that do not rewrite the
exercise identifier (all its callers); demo-data seeding, however, creates
sessions with empty log lists that violate it. -/
theorem C6_invariant_generation_and_logging :
    (∀ (ids : ℕ → String) (sessId dateISO : String) (setup : Setup) (history : List Session),
      [ids 0, ids 1, ids 2, ids 3, ids 4].Nodup →
      sessionOk (genSession ids sessId dateISO setup history) = true) ∧
    (∀ (sameDay : String → String → Bool) (nowISO : String) (st : AppState)
      (patch : SessionPatch), patch.workout = none → patch.logs = none →
      (∀ s ∈ st.history, sessionOk s = true) →
      ∀ s ∈ (updateToday sameDay nowISO st patch).history, sessionOk s = true) ∧
    (∀ (sameDay : String → String → Bool) (nowISO : String) (st : AppState)
      (exId : String) (lp : LogPatch), lp.exerciseId = none →
      (∀ s ∈ st.history, sessionOk s = true) →
      ∀ s ∈ (updateExerciseLog sameDay nowISO st exId lp).history, sessionOk s = true) := by
  refine ⟨?_, ?_, ?_⟩
  · intro ids sessId dateISO setup history hids
    refine sessionOk_of (genSession_logs_ids ids sessId dateISO setup history) ?_
    rw [genSession_workout_ids]
    exact hids
  · intro sameDay nowISO st patch hw hl hinv s hs
    rcases st with ⟨su, hist⟩
    cases hist with
    | nil => exact hinv s hs
    | cons h rest =>
      by_cases hd : sameDay h.dateISO nowISO = true
      · simp only [updateToday, hd, if_true] at hs
        rcases List.mem_cons.mp hs with rfl | hmem
        · have hms : sessionOk (mergeSession h patch) = sessionOk h := by
            rw [sessionOk, sessionOk]
            simp [mergeSession, hw, hl]
          rw [hms]
          exact hinv h (List.mem_cons_self _ _)
        · exact hinv s (List.mem_cons_of_mem _ hmem)
      · simp only [updateToday, hd, if_false] at hs
        exact hinv s hs
  · intro sameDay nowISO st exId lp hlp hinv s hs
    rcases st with ⟨su, hist⟩
    cases hist with
    | nil => exact hinv s hs
    | cons h rest =>
      by_cases hd : sameDay h.dateISO nowISO = true
      · simp only [updateExerciseLog, updateToday, hd, if_true] at hs
        rcases List.mem_cons.mp hs with rfl | hmem
        · have hf : ∀ l : ExerciseLog,
              ((fun l => if l.exerciseId == exId then mergeLog l lp else l) l).exerciseId =
                l.exerciseId := by
            intro l
            by_cases hmatch : (l.exerciseId == exId) = true <;> simp [hmatch, mergeLog, hlp]
          rw [mergeSession_logs_only, sessionOk_map_logs h _ hf]
          exact hinv h (List.mem_cons_self _ _)
        · exact hinv s (List.mem_cons_of_mem _ hmem)
      · simp only [updateExerciseLog, hd, if_false] at hs
        exact hinv s hs

/-- C6 witness: a concretely generated session satisfies the invariant, via
the main theorem at a concrete id supply. -/
theorem C6_invariant_generation_and_logging_witness :
    sessionOk (genSession demoIdsFun "s" "d" demoSetup []) = true :=
  C6_invariant_generation_and_logging.1 demoIdsFun "s" "d" demoSetup [] (by decide)

/-! ### C7 and C8: persistence round-trip and malformed stored data -/

theorem decodeListWith_map (f : JValue → Option α) (g : α → JValue) (xs : List α)
    (h : ∀ a ∈ xs, f (g a) = some a) : decodeListWith f (xs.map g) = some xs := by
  induction xs with
  | nil => rfl
  | cons a as ih =>
    rw [List.map_cons, decodeListWith, h a (List.mem_cons_self a as),
      ih (fun b hb => h b (List.mem_cons_of_mem a hb))]

theorem decodeStrList_map (xs : List String) :
    decodeStrList (.arr (xs.map .str)) = some xs := by
  show decodeListWith asStr (xs.map JValue.str) = some xs
  exact decodeListWith_map _ _ _ (fun a _ => rfl)

theorem decodeGoal_encodeGoal (g : Goal) : decodeGoal (encodeGoal g) = some g := by
  cases g <;> rfl

theorem decodeDayType_encodeDayType (d : DayType) : decodeDayType (encodeDayType d) = some d := by
  cases d <;> rfl

theorem decodePrimary_encodePrimary (p : Primary) : decodePrimary (encodePrimary p) = some p := by
  cases p with
  | lift k => cases k <;> rfl
  | accessory => rfl

theorem decodeSetup_encodeSetup (s : Setup) : decodeSetup (encodeSetup s) = some s := by
  rcases s with ⟨nm, g, hq, wq, gl, fr⟩
  cases nm <;>
    · show (decodeGoal (encodeGoal gl)).bind _ = _
      rw [decodeGoal_encodeGoal]
      rfl

theorem decodeLog_encodeLog (l : ExerciseLog) : decodeLog (encodeLog l) = some l := by
  rcases l with ⟨i, aw, ar, rp, nt⟩
  cases aw <;> cases ar <;> cases rp <;> cases nt <;> rfl

theorem decodeExercise_encodeExercise (e : Exercise) :
    decodeExercise (encodeExercise e) = some e := by
  rcases e with ⟨i, nm, pr, mg, st, rp, tw, nt⟩
  have hmg := decodeStrList_map mg
  cases tw <;> cases nt <;>
    · show (decodePrimary (encodePrimary pr)).bind _ = _
      rw [decodePrimary_encodePrimary]
      show (decodeStrList (JValue.arr (mg.map JValue.str))).bind _ = _
      rw [hmg]
      rfl

theorem decodeSession_encodeSession (s : Session) :
    decodeSession (encodeSession s) = some s := by
  rcases s with ⟨i, dt, dy, mg, en, df, sl, wk, lg⟩
  have hmg := decodeStrList_map mg
  have hwk := decodeListWith_map decodeExercise encodeExercise wk
    (fun a _ => decodeExercise_encodeExercise a)
  have hlg := decodeListWith_map decodeLog encodeLog lg (fun a _ => decodeLog_encodeLog a)
  cases sl <;>
    · show (decodeDayType (encodeDayType dy)).bind _ = _
      rw [decodeDayType_encodeDayType]
      show (decodeStrList (JValue.arr (mg.map JValue.str))).bind _ = _
      rw [hmg]
      show (decodeListWith decodeExercise (wk.map encodeExercise)).bind _ = _
      rw [hwk]
      show (decodeListWith decodeLog (lg.map encodeLog)).bind _ = _
      rw [hlg]
      rfl

/-- C7: saving any profile (or its absence) and any history and reloading
the stored value yields an identical profile and the same sessions in the
same order. -/
theorem C7_save_load_roundtrip (setup : Option Setup) (history : List Session) :
    loadState (.parsed (saveState setup history)) = ⟨setup, history⟩ := by
  have hh : decodeListWith decodeSession (history.map encodeSession) = some history :=
    decodeListWith_map _ _ _ (fun a _ => decodeSession_encodeSession a)
  cases setup with
  | none =>
    show AppState.mk none ((decodeListWith decodeSession (history.map encodeSession)).getD [])
      = _
    rw [hh]
    rfl
  | some s =>
    show AppState.mk (decodeSetup (encodeSetup s))
      ((decodeListWith decodeSession (history.map encodeSession)).getD []) = _
    rw [decodeSetup_encodeSetup, hh]
    rfl

/-- C8, counterexample: a stored object whose `history` field is the number
42 (not a list) but whose `setup` field holds a valid profile loads to a
state that keeps that profile — not the empty state the claim promises. -/
theorem C8_counterexample :
    jGetField badStored "history" = some (.num 42) ∧
    loadState (.parsed badStored) = ⟨some demoSetup, []⟩ ∧
    loadState (.parsed badStored) ≠ ⟨none, []⟩ := by
  have h2 : loadState (.parsed badStored) = ⟨some demoSetup, []⟩ := by
    show AppState.mk (decodeSetup (encodeSetup demoSetup)) [] = _
    rw [decodeSetup_encodeSetup]
  refine ⟨rfl, h2, ?_⟩
  rw [h2]
  simp

/-- C8, amended: an absent or unparseable stored string loads to the empty
state, and when the parse result's `history` field is not an array the
loaded history is empty — but the loaded profile is still whatever the
`setup` field holds (`null` or absent giving none), not forced empty. -/
theorem C8_malformed_loads :
    loadState .absent = ⟨none, []⟩ ∧
    loadState .unparseable = ⟨none, []⟩ ∧
    ∀ v : JValue, (∀ w, jGetField v "history" = some w → ∀ xs, w ≠ .arr xs) →
      (loadState (.parsed v)).history = [] := by
  refine ⟨rfl, rfl, ?_⟩
  intro v hv
  cases hw : jGetField v "history" with
  | none => simp [loadState, hw]
  | some w =>
    cases w with
    | arr xs => exact absurd rfl (hv _ hw xs)
    | null => simp [loadState, hw]
    | bool b => simp [loadState, hw]
    | num q => simp [loadState, hw]
    | str s2 => simp [loadState, hw]
    | obj fs => simp [loadState, hw]

/-- C8 witness: a stored bare number loads with empty history. -/
theorem C8_malformed_loads_witness :
    (loadState (.parsed (.num 3))).history = [] :=
  C8_malformed_loads.2.2 (.num 3) (by intro w hw xs; simp [jGetField] at hw)

end WorkoutMVP
